import Mathlib

/-!
Shallow embedding of the authentication and session-lifecycle core of the
ai-food-safety backend (`app/core/security.py`, `app/api/v1/routes/auth.py`,
`app/api/v1/dependencies.py`, `app/db/models.py`), together with proofs of
the specification's claims about it.

Modelling conventions:
* Time is a `Nat` (seconds since epoch); `datetime.utcnow()` becomes an
  explicit `now` parameter.
* A JWT string is modelled as `TokenStr`: either a well-signed token
  carrying its payload (`valid p`, with jose's `jwt.encode` deterministic,
  so equal payloads give equal strings and distinct payloads distinct
  strings), or an unverifiable string (`garbage s`).
* bcrypt hashing (`pwd_context`) is modelled as a deterministic injective
  tagging; `verify` is equality against the re-tagged plain text.
* The relational store and the Redis blacklist are explicit lists inside a
  `State`; SQLAlchemy `.first()` is `List.find?`, `setex` replaces any
  previous entry for the key.
* Python exceptions become `Except ApiError`; FastAPI `HTTPException`,
  the custom `AuthenticationError` (status 401) and `OTPError` (status 400)
  from `app/core/exceptions.py` are constructors of `ApiError`, and an
  injected `storeError` stands for an unexpected infrastructure exception
  (e.g. a Redis outage).
-/

namespace FoodSafety

/-- Roles of `models.UserRole`. -/
inductive UserRole where
  | consumer
  | vendor
  | ngo
  | admin
deriving DecidableEq, Repr

/-- The fields of `models.User` that the auth core reads. -/
structure User where
  id : Nat
  email : String
  hashed_password : String
  role : UserRole
  is_active : Bool
deriving DecidableEq, Repr

/-- Claims carried inside a signed JWT, as built by `create_access_token` /
`create_refresh_token`: `exp`, `sub`, `type`.  `sub` and `type` are optional
because `payload.get` may return `None` for tokens minted elsewhere. -/
structure Payload where
  exp : Nat
  sub : Option String
  type : Option String
deriving DecidableEq, Repr

/-- A JWT string: either a well-signed token encoding payload `p`, or a
string that fails signature verification. -/
inductive TokenStr where
  | valid (p : Payload)
  | garbage (s : String)
deriving DecidableEq, Repr

/-- A row of `models.RefreshToken`. -/
structure RefreshTokenRow where
  user_id : Nat
  token : TokenStr
  expires_at : Nat
  is_revoked : Bool
deriving DecidableEq, Repr

/-- A row of `models.OTPCode`. -/
structure OTPCodeRow where
  id : Nat
  email : String
  code : String
  expires_at : Nat
  is_used : Bool
  created_at : Nat
deriving DecidableEq, Repr

/-- One Redis `setex` record: the blacklist key for the token maps to a
sentinel that lives for `ttl` seconds from `inserted_at`. -/
structure BLEntry where
  token : TokenStr
  ttl : Nat
  inserted_at : Nat
deriving DecidableEq, Repr

/-- The mutable world the auth core touches: the relational store and the
Redis blacklist. -/
structure State where
  users : List User
  refresh_tokens : List RefreshTokenRow
  otp_codes : List OTPCodeRow
  blacklist : List BLEntry
deriving DecidableEq, Repr

/-- Configuration values from `app/config.py` consumed by the auth core. -/
structure Settings where
  ACCESS_TOKEN_EXPIRE_MINUTES : Nat
  REFRESH_TOKEN_EXPIRE_DAYS : Nat
  OTP_EXPIRE_MINUTES : Nat
deriving DecidableEq, Repr

/-- Default values of `app/config.py` (`ACCESS_TOKEN_EXPIRE_MINUTES = 30`,
`REFRESH_TOKEN_EXPIRE_DAYS = 30`, `OTP_EXPIRE_MINUTES = 10`). -/
def defaultSettings : Settings :=
  { ACCESS_TOKEN_EXPIRE_MINUTES := 30
    REFRESH_TOKEN_EXPIRE_DAYS := 30
    OTP_EXPIRE_MINUTES := 10 }

/-- Error outcomes of the auth core. `httpException` is FastAPI's
`HTTPException(status_code, detail)`; `authenticationError` is the custom
`AuthenticationError` (status 401) and `otpError` the custom `OTPError`
(status 400) from `app/core/exceptions.py`; `jwtError` is jose's `JWTError`
on decode failure, `valueError` is Python's `ValueError` from `int(...)`,
and `storeError` stands for an unexpected exception from a downstream
store. -/
inductive ApiError where
  | httpException (status_code : Nat) (detail : String)
  | authenticationError (message : String)
  | otpError (message : String)
  | jwtError
  | valueError
  | storeError (message : String)
deriving DecidableEq, Repr

/-- Model of `security.get_password_hash` / `security.hash_otp`
(`pwd_context.hash`): bcrypt modelled as a deterministic injective tag. -/
def get_password_hash (password : String) : String :=
  "bcrypt$" ++ password

/-- Model of `security.verify_password` (`pwd_context.verify`). -/
def verify_password (plain_password hashed_password : String) : Bool :=
  hashed_password == get_password_hash plain_password

/-- Model of `security.hash_otp` (same `pwd_context` as passwords). -/
def hash_otp (otp : String) : String :=
  get_password_hash otp

/-- Model of `security.verify_otp`. -/
def verify_otp (plain_otp hashed_otp : String) : Bool :=
  hashed_otp == get_password_hash plain_otp

/-- `security.create_access_token(subject)` with the default expiry:
payload `\x7bexp: now+minutes*60, sub: str(subject), type: "access"\x7d`. -/
def create_access_token (s : Settings) (subject : Nat) (now : Nat) : TokenStr :=
  TokenStr.valid
    { exp := now + s.ACCESS_TOKEN_EXPIRE_MINUTES * 60
      sub := some (toString subject)
      type := some "access" }

/-- `security.create_refresh_token(subject)`: payload
`\x7bexp: now+days, sub: str(subject), type: "refresh"\x7d`. -/
def create_refresh_token (s : Settings) (subject : Nat) (now : Nat) : TokenStr :=
  TokenStr.valid
    { exp := now + s.REFRESH_TOKEN_EXPIRE_DAYS * 24 * 60 * 60
      sub := some (toString subject)
      type := some "refresh" }

/-- `security.decode_token` / `jwt.decode`: succeeds on a well-signed token
whose `exp` lies in the future, fails (raises `JWTError`) on a bad signature
or an expired token. -/
def decode_token (now : Nat) : TokenStr → Option Payload
  | TokenStr.valid p => if now < p.exp then some p else none
  | TokenStr.garbage _ => none

/-- `security.blacklist_token(token, expire_seconds)`: Redis
`setex` on the key for `token`, replacing any previous entry. -/
def blacklist_token (st : State) (token : TokenStr) (expire_seconds : Nat)
    (now : Nat) : State :=
  { st with blacklist :=
      { token := token, ttl := expire_seconds, inserted_at := now } ::
        st.blacklist.filter (fun e => e.token ≠ token) }

/-- `security.is_token_blacklisted`: the key exists and its TTL has not
elapsed. -/
def is_token_blacklisted (st : State) (token : TokenStr) (now : Nat) : Bool :=
  st.blacklist.any (fun e => e.token == token && now < e.inserted_at + e.ttl)

/-- The `select(User).filter(User.email == ...)` + `.first()` lookup. -/
def findUserByEmail (st : State) (email : String) : Option User :=
  st.users.find? (fun u => u.email == email)

/-- The `select(User).filter(User.id == ...)` + `.first()` lookup. -/
def findUserById (st : State) (uid : Nat) : Option User :=
  st.users.find? (fun u => u.id == uid)

/-- The token pair returned by login / OTP verify / refresh. -/
structure TokenPair where
  access_token : TokenStr
  refresh_token : TokenStr
deriving DecidableEq, Repr

/-- Route `POST /auth/login` (`login_access_token` in
`app/api/v1/routes/auth.py`): look up the user by email, check the
password, check activity, mint an access+refresh pair, persist the refresh
token row, return the pair. -/
def login_access_token (s : Settings) (st : State) (username password : String)
    (now : Nat) : Except ApiError (TokenPair × State) :=
  match findUserByEmail st username with
  | none => Except.error (ApiError.httpException 400 "Incorrect email or password")
  | some user =>
    if ¬ verify_password password user.hashed_password then
      Except.error (ApiError.httpException 400 "Incorrect email or password")
    else if ¬ user.is_active then
      Except.error (ApiError.httpException 400 "Inactive user")
    else
      let access_token := create_access_token s user.id now
      let refresh_token := create_refresh_token s user.id now
      let row : RefreshTokenRow :=
        { user_id := user.id
          token := refresh_token
          expires_at := now + s.REFRESH_TOKEN_EXPIRE_DAYS * 24 * 60 * 60
          is_revoked := false }
      Except.ok
        ({ access_token := access_token, refresh_token := refresh_token },
          { st with refresh_tokens := st.refresh_tokens ++ [row] })

/-- Accumulator of the decimal parse modelling Python `int(...)`. -/
def digitsToNat : List Char → Nat → Option Nat
  | [], acc => some acc
  | c :: cs, acc =>
    if c.isDigit then digitsToNat cs (acc * 10 + (c.toNat - 48)) else none

/-- Model of Python `int(...)` on the strings this core feeds it (the `sub`
claim, produced by `str(user.id)` for legitimate tokens): parses a
nonempty decimal string, fails (raises `ValueError`) otherwise. -/
def int_of_string (s : String) : Option Nat :=
  match s.data with
  | [] => none
  | c :: cs => digitsToNat (c :: cs) 0

/-- The error `credentials_exception` of `get_current_user`:
`HTTPException(401, "Could not validate credentials")`. -/
def credentials_exception : ApiError :=
  ApiError.httpException 401 "Could not validate credentials"

/-- The purpose embedded in a presented token: the `type` claim of the
signed payload, or nothing for an unverifiable string. -/
def purposeOf : TokenStr → Option String
  | TokenStr.valid p => p.type
  | TokenStr.garbage _ => none

/-- Dependency `get_current_user` of `app/api/v1/dependencies.py` (the
Identity Gate): reject blacklisted tokens, decode, reject a missing `sub`,
reject `type != "access"`, resolve the subject to a user.  A non-numeric
`sub` makes `int(token_data.sub)` raise an uncaught `ValueError`. -/
def get_current_user (st : State) (token : TokenStr) (now : Nat) :
    Except ApiError User :=
  if is_token_blacklisted st token now then
    Except.error credentials_exception
  else
    match decode_token now token with
    | none => Except.error credentials_exception
    | some payload =>
      match payload.sub with
      | none => Except.error credentials_exception
      | some user_id =>
        if payload.type ≠ some "access" then
          Except.error credentials_exception
        else
          match int_of_string user_id with
          | none => Except.error ApiError.valueError
          | some uid =>
            match findUserById st uid with
            | none => Except.error credentials_exception
            | some user => Except.ok user

/-- Dependency `get_current_active_user`: a resolved but inactive user is
rejected with `HTTPException(400, "Inactive user")`. -/
def get_current_active_user (st : State) (token : TokenStr) (now : Nat) :
    Except ApiError User :=
  match get_current_user st token now with
  | Except.error e => Except.error e
  | Except.ok user =>
    if ¬ user.is_active then
      Except.error (ApiError.httpException 400 "Inactive user")
    else Except.ok user

/-- A fresh autoincrement primary key for `otp_codes`. -/
def freshOtpId (st : State) : Nat :=
  st.otp_codes.foldl (fun m r => max m (r.id + 1)) 0

/-- Response body of `POST /auth/admin/request-otp`. -/
structure OTPRequestResponse where
  success : Bool
  message : String
  email : String
deriving DecidableEq, Repr

/-- Route `POST /auth/admin/request-otp` (`request_admin_otp`).  The OTP
code produced by `security.generate_otp()` is passed in as `otp_code`, and
the outcome of `email_service.send_otp_email` as `email_sent`.  The
challenge row is committed before the email is dispatched, so the second
component is the persisted state even when the request errors. -/
def request_admin_otp (s : Settings) (st : State) (email otp_code : String)
    (now : Nat) (email_sent : Bool) :
    Except ApiError OTPRequestResponse × State :=
  match findUserByEmail st email with
  | none => (Except.error (ApiError.httpException 404 "User not found"), st)
  | some user =>
    if user.role ≠ UserRole.admin then
      (Except.error (ApiError.httpException 403
        "OTP login is only available for admin users"), st)
    else if ¬ user.is_active then
      (Except.error (ApiError.httpException 400 "Inactive user"), st)
    else
      let row : OTPCodeRow :=
        { id := freshOtpId st
          email := email
          code := hash_otp otp_code
          expires_at := now + s.OTP_EXPIRE_MINUTES * 60
          is_used := false
          created_at := now }
      let st' : State := { st with otp_codes := st.otp_codes ++ [row] }
      if ¬ email_sent then
        (Except.error (ApiError.httpException 500
          "Failed to send OTP email. Please check email configuration."), st')
      else
        (Except.ok
          { success := true
            message := "OTP sent to " ++ email
            email := email }, st')

/-- The filter of the OTP-verify route: challenge row for the email, not
yet used, not yet expired. -/
def activeOtp (email : String) (now : Nat) (r : OTPCodeRow) : Bool :=
  r.email == email && !r.is_used && now < r.expires_at

/-- The `order_by(created_at.desc()).first()` selection of the latest
unused, unexpired challenge for an email: the first row attaining the
maximal `created_at` among the matches. -/
def latestActiveOtp (st : State) (email : String) (now : Nat) :
    Option OTPCodeRow :=
  (st.otp_codes.filter (activeOtp email now)).foldl
    (fun best r =>
      match best with
      | none => some r
      | some b => if r.created_at > b.created_at then some r else some b)
    none

/-- The in-place `otp_record.is_used = True` mutation, keyed by the primary
key of the row returned by `.first()`. -/
def markUsed (cid : Nat) (r : OTPCodeRow) : OTPCodeRow :=
  if r.id == cid then { r with is_used := true } else r

/-- Route `POST /auth/admin/verify-otp` (`verify_admin_otp`): resolve the
user, select the latest active challenge, verify the code, mark the
challenge used, mint and persist a token pair. -/
def verify_admin_otp (s : Settings) (st : State) (email code : String)
    (now : Nat) : Except ApiError (TokenPair × State) :=
  match findUserByEmail st email with
  | none => Except.error (ApiError.otpError "Invalid OTP")
  | some user =>
    match latestActiveOtp st email now with
    | none => Except.error (ApiError.otpError "OTP expired or invalid")
    | some otp_record =>
      if ¬ verify_otp code otp_record.code then
        Except.error (ApiError.otpError "Invalid OTP")
      else
        let access_token := create_access_token s user.id now
        let refresh_token := create_refresh_token s user.id now
        let newRow : RefreshTokenRow :=
          { user_id := user.id
            token := refresh_token
            expires_at := now + s.REFRESH_TOKEN_EXPIRE_DAYS * 24 * 60 * 60
            is_revoked := false }
        Except.ok
          ({ access_token := access_token, refresh_token := refresh_token },
            { st with
                otp_codes := st.otp_codes.map (markUsed otp_record.id)
                refresh_tokens := st.refresh_tokens ++ [newRow] })

/-- Flips `is_revoked` on the first row satisfying the predicate, the way
the route mutates the single ORM object returned by `.first()`. -/
def revokeFirstMatching (p : RefreshTokenRow → Bool) :
    List RefreshTokenRow → List RefreshTokenRow
  | [] => []
  | r :: rs =>
    if p r then { r with is_revoked := true } :: rs
    else r :: revokeFirstMatching p rs

/-- The filter of the refresh route (and of `isRefreshValid` in the spec's
Revocation Ledger): the row for the token exists, is unrevoked, and is
unexpired. -/
def liveRowFor (token : TokenStr) (now : Nat) (r : RefreshTokenRow) : Bool :=
  r.token == token && !r.is_revoked && now < r.expires_at

/-- The spec's `isRefreshValid(token)`: a row exists with `revoked=false`
and `expires_at > now`.  This is exactly the filter the refresh route runs
against the `refresh_tokens` table. -/
def isRefreshValid (st : State) (token : TokenStr) (now : Nat) : Bool :=
  st.refresh_tokens.any (liveRowFor token now)

/-- Body of the `try` block of `refresh_access_token`.  `fault` injects an
unexpected exception at the Redis blacklist call (`none` = the store is
healthy). -/
def refreshBody (s : Settings) (st : State) (refresh_token : TokenStr)
    (now : Nat) (fault : Option ApiError) :
    Except ApiError (TokenPair × State) :=
  match decode_token now refresh_token with
  | none => Except.error ApiError.jwtError
  | some payload =>
    if payload.type ≠ some "refresh" then
      Except.error (ApiError.authenticationError "Invalid token type")
    else
      match payload.sub with
      | none => Except.error (ApiError.authenticationError "Invalid token")
      | some user_id =>
        if user_id = "" then
          Except.error (ApiError.authenticationError "Invalid token")
        else
          match fault with
          | some e => Except.error e
          | none =>
            if is_token_blacklisted st refresh_token now then
              Except.error (ApiError.authenticationError "Token has been revoked")
            else
              match st.refresh_tokens.find? (liveRowFor refresh_token now) with
              | none =>
                Except.error
                  (ApiError.authenticationError "Invalid or expired refresh token")
              | some _ =>
                match int_of_string user_id with
                | none => Except.error ApiError.valueError
                | some uid =>
                  match findUserById st uid with
                  | none =>
                    Except.error
                      (ApiError.authenticationError "User not found or inactive")
                  | some user =>
                    if ¬ user.is_active then
                      Except.error
                        (ApiError.authenticationError "User not found or inactive")
                    else
                      let new_access := create_access_token s user.id now
                      let new_refresh := create_refresh_token s user.id now
                      let newRow : RefreshTokenRow :=
                        { user_id := user.id
                          token := new_refresh
                          expires_at :=
                            now + s.REFRESH_TOKEN_EXPIRE_DAYS * 24 * 60 * 60
                          is_revoked := false }
                      Except.ok
                        ({ access_token := new_access
                           refresh_token := new_refresh },
                          { st with refresh_tokens :=
                              (revokeFirstMatching (liveRowFor refresh_token now)
                                st.refresh_tokens) ++ [newRow] })

/-- Route `POST /auth/refresh` (`refresh_access_token`): the whole body sits
in a `try` whose `except Exception` re-raises
`AuthenticationError("Failed to refresh token")`, so every failure leaves
the state unchanged (nothing was committed) and surfaces as that single
error. -/
def refresh_access_token (s : Settings) (st : State) (refresh_token : TokenStr)
    (now : Nat) (fault : Option ApiError) :
    Except ApiError (TokenPair × State) :=
  match refreshBody s st refresh_token now fault with
  | Except.ok r => Except.ok r
  | Except.error _ =>
    Except.error (ApiError.authenticationError "Failed to refresh token")

/-- Response body of `POST /auth/logout`. -/
structure LogoutResponse where
  success : Bool
  message : String
deriving DecidableEq, Repr

/-- Route `POST /auth/logout` (`logout`): revoke the persisted row scoped to
the current user (if any) and commit, then `await` the Redis blacklist
write with `REFRESH_TOKEN_EXPIRE_DAYS * 24 * 60 * 60` seconds of TTL.  The
blacklist call is not guarded, so when it raises (`blacklistOk = false`)
the request errors after the revoke was committed; the second component is
the persisted state either way. -/
def logout (s : Settings) (st : State) (current_user : User)
    (refresh_token : TokenStr) (now : Nat) (blacklistOk : Bool) :
    Except ApiError LogoutResponse × State :=
  let st₁ : State :=
    { st with refresh_tokens :=
        (revokeFirstMatching
          (fun r => r.token == refresh_token && r.user_id == current_user.id)
          st.refresh_tokens) }
  if blacklistOk then
    (Except.ok { success := true, message := "Logged out successfully" },
      blacklist_token st₁ refresh_token
        (s.REFRESH_TOKEN_EXPIRE_DAYS * 24 * 60 * 60) now)
  else
    (Except.error (ApiError.storeError "blacklist write failed"), st₁)

/-! Concrete fixtures used to instantiate the theorems below. -/

/-- An active admin principal. -/
def alice : User :=
  { id := 1
    email := "a@x.com"
    hashed_password := get_password_hash "pw1"
    role := UserRole.admin
    is_active := true }

/-- An active consumer principal, distinct from `alice`. -/
def bob : User :=
  { id := 2
    email := "b@x.com"
    hashed_password := get_password_hash "pw2"
    role := UserRole.consumer
    is_active := true }

/-- The empty world. -/
def stEmpty : State :=
  { users := [], refresh_tokens := [], otp_codes := [], blacklist := [] }

/-- A world with the two principals and nothing else. -/
def stAB : State :=
  { stEmpty with users := [alice, bob] }

/-- The refresh token minted for `alice` by a login at time 0. -/
def tok1 : TokenStr :=
  create_refresh_token defaultSettings 1 0

/-- The row persisted for `tok1` by that login. -/
def row1 : RefreshTokenRow :=
  { user_id := 1
    token := tok1
    expires_at := defaultSettings.REFRESH_TOKEN_EXPIRE_DAYS * 24 * 60 * 60
    is_revoked := false }

/-- A world in which `alice` holds the live session `row1`. -/
def stSession : State :=
  { stEmpty with users := [alice, bob], refresh_tokens := [row1] }

/-- A refresh token of `alice` that is about to expire: at time 1000 only
100 seconds of lifetime remain. -/
def tokShort : TokenStr :=
  TokenStr.valid { exp := 1100, sub := some "1", type := some "refresh" }

/-- The persisted row for `tokShort`. -/
def rowShort : RefreshTokenRow :=
  { user_id := 1, token := tokShort, expires_at := 1100, is_revoked := false }

/-- A world in which `alice` holds the nearly expired session `rowShort`. -/
def stShort : State :=
  { stEmpty with users := [alice, bob], refresh_tokens := [rowShort] }

/-! Helper lemmas. -/

/-- Rows on which the predicate is false are left untouched by
`revokeFirstMatching`. -/
theorem revokeFirstMatching_of_forall_false (p : RefreshTokenRow → Bool)
    (l : List RefreshTokenRow) (h : ∀ r ∈ l, p r = false) :
    revokeFirstMatching p l = l := by
  induction l with
  | nil => rfl
  | cons r rs ih =>
    have hr := h r (List.mem_cons_self r rs)
    have hrs := ih (fun x hx => h x (List.mem_cons_of_mem r hx))
    simp [revokeFirstMatching, hr, hrs]

/-- A live row's token matches the searched token. -/
theorem liveRowFor_token_eq {R : TokenStr} {now : Nat} {r : RefreshTokenRow}
    (h : liveRowFor R now r = true) : (r.token == R) = true := by
  simp only [liveRowFor, Bool.and_eq_true] at h
  exact h.1.1

/-- After `revokeFirstMatching` on a table holding at most one row for the
token, no live row for that token remains. -/
theorem no_live_after_revokeFirst (R : TokenStr) (now : Nat)
    (l : List RefreshTokenRow)
    (huniq : (l.filter (fun r => r.token == R)).length ≤ 1) :
    (revokeFirstMatching (liveRowFor R now) l).any (liveRowFor R now) = false := by
  induction l with
  | nil => rfl
  | cons r rs ih =>
    by_cases hp : liveRowFor R now r = true
    · have htok : (r.token == R) = true := liveRowFor_token_eq hp
      have hrw : revokeFirstMatching (liveRowFor R now) (r :: rs) =
          { r with is_revoked := true } :: rs := by
        simp [revokeFirstMatching, hp]
      have hrs0 : rs.filter (fun x => x.token == R) = [] := by
        rw [@List.filter_cons_of_pos _ (fun x => x.token == R) r rs htok, List.length_cons] at huniq
        rw [← List.length_eq_zero]
        omega
      have hany : rs.any (liveRowFor R now) = false := by
        rw [List.any_eq_false]
        intro x hx hl
        have hxt := liveRowFor_token_eq hl
        have hxm : x ∈ rs.filter (fun x => x.token == R) :=
          List.mem_filter.mpr ⟨hx, hxt⟩
        rw [hrs0] at hxm
        simp at hxm
      have hhead : liveRowFor R now { r with is_revoked := true } = false := by
        simp [liveRowFor]
      rw [hrw]
      simp [List.any_cons, hhead, hany]
    · have hp' : liveRowFor R now r = false := by
        simpa using hp
      have hrw : revokeFirstMatching (liveRowFor R now) (r :: rs) =
          r :: revokeFirstMatching (liveRowFor R now) rs := by
        simp [revokeFirstMatching, hp']
      have huniq' : (rs.filter (fun r => r.token == R)).length ≤ 1 := by
        by_cases ht : (r.token == R) = true
        · rw [@List.filter_cons_of_pos _ (fun x => x.token == R) r rs ht, List.length_cons] at huniq
          omega
        · rwa [@List.filter_cons_of_neg _ (fun x => x.token == R) r rs ht] at huniq
      rw [hrw]
      simp [List.any_cons, hp', ih huniq']

/-- The row found by `.first()` is flipped to `is_revoked=true` and stays in
the table. -/
theorem mem_revokeFirstMatching_of_find (p : RefreshTokenRow → Bool)
    (l : List RefreshTokenRow) (row : RefreshTokenRow)
    (h : l.find? p = some row) :
    { row with is_revoked := true } ∈ revokeFirstMatching p l := by
  induction l with
  | nil => simp at h
  | cons r rs ih =>
    by_cases hp : p r = true
    · rw [List.find?_cons_of_pos _ hp] at h
      have hr : r = row := Option.some.inj h
      have hrw : revokeFirstMatching p (r :: rs) =
          { r with is_revoked := true } :: rs := by
        simp [revokeFirstMatching, hp]
      rw [hrw, hr]
      exact List.mem_cons_self _ _
    · rw [List.find?_cons_of_neg _ hp] at h
      have hrw : revokeFirstMatching p (r :: rs) =
          r :: revokeFirstMatching p rs := by
        simp [revokeFirstMatching, hp]
      rw [hrw]
      exact List.mem_cons_of_mem _ (ih h)

/-- A refresh presenting a well-formed, unblacklisted refresh token that has
no live persisted row fails inside the `try` body with
"Invalid or expired refresh token". -/
theorem refreshBody_error_of_no_row (s : Settings) (st : State) (p : Payload)
    (now : Nat) (subStr : String)
    (htype : p.type = some "refresh") (hsub : p.sub = some subStr)
    (hne : subStr ≠ "") (hexp : now < p.exp)
    (hbl : is_token_blacklisted st (TokenStr.valid p) now = false)
    (hfind : st.refresh_tokens.find? (liveRowFor (TokenStr.valid p) now) = none) :
    refreshBody s st (TokenStr.valid p) now none =
      Except.error
        (ApiError.authenticationError "Invalid or expired refresh token") := by
  simp [refreshBody, decode_token, hexp, htype, hsub, hne, hbl, hfind]

/-! Claim theorems. -/

/-- C3: every token presented to the Identity Gate whose embedded purpose is
not "access" (in particular any refresh token) fails with the 401
"Could not validate credentials" error, so no principal reaches the
handler. -/
theorem C3_gate_rejects_non_access_purpose (st : State) (token : TokenStr)
    (now : Nat) (h : purposeOf token ≠ some "access") :
    get_current_user st token now = Except.error credentials_exception := by
  cases token with
  | garbage s => simp [get_current_user, decode_token]
  | valid p =>
    simp only [purposeOf] at h
    by_cases hbl : is_token_blacklisted st (TokenStr.valid p) now
    · simp [get_current_user, hbl]
    · by_cases hexp : now < p.exp
      · cases hsub : p.sub with
        | none => simp [get_current_user, hbl, decode_token, hexp, hsub]
        | some uidStr =>
          simp [get_current_user, hbl, decode_token, hexp, hsub, h]
      · simp [get_current_user, hbl, decode_token, hexp]

/-- C3 witness: a freshly minted refresh token is rejected by the gate. -/
theorem C3_gate_rejects_non_access_purpose_witness :
    purposeOf (create_refresh_token defaultSettings 1 0) ≠ some "access" ∧
    get_current_user stAB (create_refresh_token defaultSettings 1 0) 5 =
      Except.error credentials_exception :=
  ⟨by decide,
    C3_gate_rejects_non_access_purpose stAB
      (create_refresh_token defaultSettings 1 0) 5 (by decide)⟩

/-- C6: a login against an unknown email and a login against a known email
with a wrong password fail with the identical observable error, status 400
with detail "Incorrect email or password". -/
theorem C6_login_failures_indistinguishable (s : Settings) (st : State)
    (username password : String) (now : Nat)
    (h : findUserByEmail st username = none ∨
      ∃ u, findUserByEmail st username = some u ∧
        verify_password password u.hashed_password = false) :
    login_access_token s st username password now =
      Except.error (ApiError.httpException 400 "Incorrect email or password") := by
  rcases h with h | ⟨u, hu, hpw⟩
  · simp [login_access_token, h]
  · simp [login_access_token, hu, hpw]

/-- C6 witness: the two failing runs on a concrete world produce the very
same error value. -/
theorem C6_login_failures_indistinguishable_witness :
    login_access_token defaultSettings stAB "nobody@x.com" "pw1" 0 =
      Except.error (ApiError.httpException 400 "Incorrect email or password") ∧
    login_access_token defaultSettings stAB "a@x.com" "wrong" 0 =
      Except.error (ApiError.httpException 400 "Incorrect email or password") :=
  ⟨C6_login_failures_indistinguishable defaultSettings stAB "nobody@x.com" "pw1" 0
      (Or.inl (by decide)),
    C6_login_failures_indistinguishable defaultSettings stAB "a@x.com" "wrong" 0
      (Or.inr ⟨alice, by decide, by decide⟩)⟩

/-- C9: every run of the refresh route either succeeds or surfaces exactly
`AuthenticationError("Failed to refresh token")`, whatever the internal
cause (decode failure, wrong purpose, missing subject, blacklisted or
revoked token, absent or inactive principal, or an injected store fault). -/
theorem C9_refresh_failures_collapse (s : Settings) (st : State)
    (refresh_token : TokenStr) (now : Nat) (fault : Option ApiError) :
    (∃ r, refresh_access_token s st refresh_token now fault = Except.ok r) ∨
    refresh_access_token s st refresh_token now fault =
      Except.error (ApiError.authenticationError "Failed to refresh token") := by
  unfold refresh_access_token
  cases refreshBody s st refresh_token now fault with
  | ok r => exact Or.inl ⟨r, rfl⟩
  | error e => exact Or.inr rfl

/-- C4 counterexample: at time 1000, logging out the session `rowShort`
(whose token has 100 seconds of remaining lifetime) writes a blacklist
entry whose TTL is the full configured lifetime 2592000 seconds, strictly
more than the remaining 100 seconds — refuting "TTL equal to the remaining
lifetime of R, not more". -/
theorem C4_counterexample_ttl_exceeds_remaining :
    (logout defaultSettings stShort alice tokShort 1000 true).2.blacklist =
      [{ token := tokShort, ttl := 2592000, inserted_at := 1000 }] ∧
    rowShort.expires_at - 1000 = 100 ∧
    ¬ (2592000 : Nat) ≤ 100 := by
  refine ⟨?_, rfl, by decide⟩
  decide

/-- C4 amended: the blacklist entry written by logout always carries the
full configured refresh-token lifetime,
`REFRESH_TOKEN_EXPIRE_DAYS * 24 * 60 * 60` seconds, whatever the remaining
lifetime of the presented token is. -/
theorem C4_blacklist_ttl_is_full_config_lifetime (s : Settings) (st : State)
    (current_user : User) (refresh_token : TokenStr) (now : Nat) :
    ((logout s st current_user refresh_token now true).2.blacklist).head? =
      some { token := refresh_token
             ttl := s.REFRESH_TOKEN_EXPIRE_DAYS * 24 * 60 * 60
             inserted_at := now } := by
  simp [logout, blacklist_token]

/-- C7: a failing blacklist write makes the whole logout request fail, even
though the persistent revoke has already been committed — the code does not
guard the Redis call, contradicting the spec's requirement that a blacklist
failure must not fail the logout. -/
theorem C7_blacklist_failure_fails_logout :
    (logout defaultSettings stSession alice tok1 1000 false).1 =
      Except.error (ApiError.storeError "blacklist write failed") ∧
    ∃ r, r ∈ (logout defaultSettings stSession alice tok1 1000 false).2.refresh_tokens ∧
      r.token = tok1 ∧ r.is_revoked = true := by
  refine ⟨rfl, { row1 with is_revoked := true }, ?_, rfl, rfl⟩
  decide

/-- C8: when the OTP email dispatch fails for an existing, active admin, the
request fails with status 500 and the challenge row is nevertheless
persisted. -/
theorem C8_otp_dispatch_failure_persists_row (s : Settings) (st : State)
    (email otp_code : String) (now : Nat) (user : User)
    (hu : findUserByEmail st email = some user)
    (hrole : user.role = UserRole.admin)
    (hact : user.is_active = true) :
    (request_admin_otp s st email otp_code now false).1 =
      Except.error (ApiError.httpException 500
        "Failed to send OTP email. Please check email configuration.") ∧
    ∃ r, r ∈ (request_admin_otp s st email otp_code now false).2.otp_codes ∧
      r.email = email ∧ r.code = hash_otp otp_code ∧ r.is_used = false ∧
      r.expires_at = now + s.OTP_EXPIRE_MINUTES * 60 := by
  constructor
  · simp [request_admin_otp, hu, hrole, hact]
  · refine ⟨{ id := freshOtpId st
              email := email
              code := hash_otp otp_code
              expires_at := now + s.OTP_EXPIRE_MINUTES * 60
              is_used := false
              created_at := now }, ?_, rfl, rfl, rfl, rfl⟩
    simp [request_admin_otp, hu, hrole, hact]

/-- C8 witness: the dispatch-failure run on a concrete admin world. -/
theorem C8_otp_dispatch_failure_persists_row_witness :
    (request_admin_otp defaultSettings stAB "a@x.com" "123456" 0 false).1 =
      Except.error (ApiError.httpException 500
        "Failed to send OTP email. Please check email configuration.") ∧
    ∃ r, r ∈ (request_admin_otp defaultSettings stAB "a@x.com" "123456" 0 false).2.otp_codes ∧
      r.email = "a@x.com" ∧ r.code = hash_otp "123456" ∧ r.is_used = false ∧
      r.expires_at = 0 + defaultSettings.OTP_EXPIRE_MINUTES * 60 :=
  C8_otp_dispatch_failure_persists_row defaultSettings stAB "a@x.com" "123456" 0
    alice (by decide) (by decide) (by decide)

/-- C10: a logout presenting a refresh-token string with no persisted row
scoped to the calling principal still succeeds, still blacklists the
string, and leaves the refresh-token table (hence every other principal's
rows) unchanged. -/
theorem C10_logout_foreign_token (s : Settings) (st : State)
    (current_user : User) (refresh_token : TokenStr) (now : Nat)
    (h : ∀ r ∈ st.refresh_tokens,
      (r.token == refresh_token && r.user_id == current_user.id) = false) :
    (logout s st current_user refresh_token now true).1 =
      Except.ok { success := true, message := "Logged out successfully" } ∧
    (logout s st current_user refresh_token now true).2.refresh_tokens =
      st.refresh_tokens ∧
    ((logout s st current_user refresh_token now true).2.blacklist).head? =
      some { token := refresh_token
             ttl := s.REFRESH_TOKEN_EXPIRE_DAYS * 24 * 60 * 60
             inserted_at := now } := by
  have hrev :
      revokeFirstMatching
        (fun r => r.token == refresh_token && r.user_id == current_user.id)
        st.refresh_tokens = st.refresh_tokens :=
    revokeFirstMatching_of_forall_false _ _ h
  refine ⟨rfl, ?_, ?_⟩
  · simp [logout, blacklist_token, hrev]
  · simp [logout, blacklist_token]

/-- C10 witness: `bob` logs out presenting `alice`'s token string; the call
succeeds, blacklists the string, and `alice`'s row is untouched. -/
theorem C10_logout_foreign_token_witness :
    (logout defaultSettings stSession bob tok1 1000 true).1 =
      Except.ok { success := true, message := "Logged out successfully" } ∧
    (logout defaultSettings stSession bob tok1 1000 true).2.refresh_tokens =
      stSession.refresh_tokens ∧
    ((logout defaultSettings stSession bob tok1 1000 true).2.blacklist).head? =
      some { token := tok1
             ttl := defaultSettings.REFRESH_TOKEN_EXPIRE_DAYS * 24 * 60 * 60
             inserted_at := 1000 } :=
  C10_logout_foreign_token defaultSettings stSession bob tok1 1000 (by decide)

/-- C2: a login by an active principal with the correct password returns a
token pair whose access token decodes to subject `str(u.id)` with purpose
"access" and whose refresh token decodes to the same subject with purpose
"refresh". -/
theorem C2_login_token_pair (s : Settings) (st : State)
    (username password : String) (now : Nat) (u : User)
    (hfind : findUserByEmail st username = some u)
    (hpw : verify_password password u.hashed_password = true)
    (hact : u.is_active = true)
    (hamin : 0 < s.ACCESS_TOKEN_EXPIRE_MINUTES)
    (hrday : 0 < s.REFRESH_TOKEN_EXPIRE_DAYS) :
    ∃ pair st',
      login_access_token s st username password now = Except.ok (pair, st') ∧
      decode_token now pair.access_token =
        some { exp := now + s.ACCESS_TOKEN_EXPIRE_MINUTES * 60
               sub := some (toString u.id)
               type := some "access" } ∧
      decode_token now pair.refresh_token =
        some { exp := now + s.REFRESH_TOKEN_EXPIRE_DAYS * 24 * 60 * 60
               sub := some (toString u.id)
               type := some "refresh" } := by
  refine ⟨{ access_token := create_access_token s u.id now
            refresh_token := create_refresh_token s u.id now },
    { st with refresh_tokens := st.refresh_tokens ++
        [{ user_id := u.id
           token := create_refresh_token s u.id now
           expires_at := now + s.REFRESH_TOKEN_EXPIRE_DAYS * 24 * 60 * 60
           is_revoked := false }] }, ?_, ?_, ?_⟩
  · simp [login_access_token, hfind, hpw, hact]
  · have hpos : now < now + s.ACCESS_TOKEN_EXPIRE_MINUTES * 60 := by omega
    simp [create_access_token, decode_token, hpos]
  · have hpos : now < now + s.REFRESH_TOKEN_EXPIRE_DAYS * 24 * 60 * 60 := by omega
    simp [create_refresh_token, decode_token, hpos]

/-- C2 witness: `alice` logs in on the concrete world with her password. -/
theorem C2_login_token_pair_witness :
    ∃ pair st',
      login_access_token defaultSettings stAB "a@x.com" "pw1" 0 =
        Except.ok (pair, st') ∧
      decode_token 0 pair.access_token =
        some { exp := 0 + defaultSettings.ACCESS_TOKEN_EXPIRE_MINUTES * 60
               sub := some (toString alice.id)
               type := some "access" } ∧
      decode_token 0 pair.refresh_token =
        some { exp := 0 + defaultSettings.REFRESH_TOKEN_EXPIRE_DAYS * 24 * 60 * 60
               sub := some (toString alice.id)
               type := some "refresh" } :=
  C2_login_token_pair defaultSettings stAB "a@x.com" "pw1" 0 alice
    (by decide) (by decide) (by decide) (by decide) (by decide)

/-- C5: when a single active challenge `c` exists for an email and the
presented code verifies, the OTP verification succeeds, the challenge row
is persisted with `used=true`, and repeating the same verification on the
resulting state fails with `OTPError`, TTL notwithstanding. -/
theorem C5_otp_single_use (s : Settings) (st : State) (email code : String)
    (now : Nat) (user : User) (c : OTPCodeRow)
    (hu : findUserByEmail st email = some user)
    (hc : st.otp_codes.filter (activeOtp email now) = [c])
    (hv : verify_otp code c.code = true) :
    ∃ pair st',
      verify_admin_otp s st email code now = Except.ok (pair, st') ∧
      (∀ r ∈ st'.otp_codes, r.id = c.id → r.is_used = true) ∧
      verify_admin_otp s st' email code now =
        Except.error (ApiError.otpError "OTP expired or invalid") := by
  have hlatest : latestActiveOtp st email now = some c := by
    simp [latestActiveOtp, hc]
  refine ⟨{ access_token := create_access_token s user.id now
            refresh_token := create_refresh_token s user.id now },
    { st with
        otp_codes := st.otp_codes.map (markUsed c.id)
        refresh_tokens := st.refresh_tokens ++
          [{ user_id := user.id
             token := create_refresh_token s user.id now
             expires_at := now + s.REFRESH_TOKEN_EXPIRE_DAYS * 24 * 60 * 60
             is_revoked := false }] }, ?_, ?_, ?_⟩
  · simp [verify_admin_otp, hu, hlatest, hv]
  · intro r hr hid
    simp only [List.mem_map] at hr
    obtain ⟨r0, hr0, heq⟩ := hr
    by_cases h0 : (r0.id == c.id) = true
    · rw [← heq]
      simp [markUsed, h0]
    · rw [← heq] at hid
      simp only [markUsed, h0, if_neg] at hid
      exact absurd hid (by simpa using h0)
  · have hu2 :
        findUserByEmail
          { st with
              otp_codes := st.otp_codes.map (markUsed c.id)
              refresh_tokens := st.refresh_tokens ++
                [{ user_id := user.id
                   token := create_refresh_token s user.id now
                   expires_at := now + s.REFRESH_TOKEN_EXPIRE_DAYS * 24 * 60 * 60
                   is_revoked := false }] } email = some user := hu
    have hmark : ∀ r0 ∈ st.otp_codes,
        activeOtp email now (markUsed c.id r0) = false := by
      intro r0 h0
      by_cases ha : activeOtp email now r0 = true
      · have hmem : r0 ∈ st.otp_codes.filter (activeOtp email now) :=
          List.mem_filter.mpr ⟨h0, ha⟩
        rw [hc] at hmem
        have hr0c : r0 = c := by simpa using hmem
        subst hr0c
        simp [markUsed, activeOtp]
      · have ha' : activeOtp email now r0 = false := by
          simpa using ha
        by_cases hid : (r0.id == c.id) = true
        · simp [markUsed, hid, activeOtp]
        · simp [markUsed, hid, ha']
    have hfilter :
        (st.otp_codes.map (markUsed c.id)).filter (activeOtp email now) = [] := by
      rw [List.filter_eq_nil_iff]
      intro a ha
      simp only [List.mem_map] at ha
      obtain ⟨r0, hr0, heq⟩ := ha
      rw [← heq]
      simp [hmark r0 hr0]
    have hlatest2 :
        latestActiveOtp
          { st with
              otp_codes := st.otp_codes.map (markUsed c.id)
              refresh_tokens := st.refresh_tokens ++
                [{ user_id := user.id
                   token := create_refresh_token s user.id now
                   expires_at := now + s.REFRESH_TOKEN_EXPIRE_DAYS * 24 * 60 * 60
                   is_revoked := false }] } email now = none := by
      simp [latestActiveOtp, hfilter]
    simp [verify_admin_otp, hu2, hlatest2]

/-- C5 witness: a concrete world with one fresh challenge for `alice`. -/
theorem C5_otp_single_use_witness :
    ∃ pair st',
      verify_admin_otp defaultSettings
        { stAB with otp_codes :=
            [{ id := 1, email := "a@x.com", code := hash_otp "123456"
               expires_at := 600, is_used := false, created_at := 0 }] }
        "a@x.com" "123456" 100 = Except.ok (pair, st') ∧
      (∀ r ∈ st'.otp_codes, r.id = 1 → r.is_used = true) ∧
      verify_admin_otp defaultSettings st' "a@x.com" "123456" 100 =
        Except.error (ApiError.otpError "OTP expired or invalid") :=
  C5_otp_single_use defaultSettings
    { stAB with otp_codes :=
        [{ id := 1, email := "a@x.com", code := hash_otp "123456"
           expires_at := 600, is_used := false, created_at := 0 }] }
    "a@x.com" "123456" 100 alice
    { id := 1, email := "a@x.com", code := hash_otp "123456"
      expires_at := 600, is_used := false, created_at := 0 }
    (by decide) (by decide) (by decide)

/-- C1: a first refresh with an issued, live refresh token of an active
principal succeeds; afterwards the persisted row for the token is
`revoked=true`, `isRefreshValid` is false for it, and a second sequential
refresh with the same token fails with `AuthenticationError`. -/
theorem C1_refresh_rotation_single_use (s : Settings) (st : State)
    (p : Payload) (now : Nat) (subStr : String) (uid : Nat) (u : User)
    (row : RefreshTokenRow)
    (htype : p.type = some "refresh")
    (hsub : p.sub = some subStr)
    (hne : subStr ≠ "")
    (hparse : int_of_string subStr = some uid)
    (hexp : now < p.exp)
    (hbl : is_token_blacklisted st (TokenStr.valid p) now = false)
    (hrow : st.refresh_tokens.find? (liveRowFor (TokenStr.valid p) now) =
      some row)
    (huniq : (st.refresh_tokens.filter
        (fun r => r.token == TokenStr.valid p)).length ≤ 1)
    (huser : findUserById st uid = some u)
    (hact : u.is_active = true)
    (hold : p.exp < now + s.REFRESH_TOKEN_EXPIRE_DAYS * 24 * 60 * 60) :
    ∃ pair st',
      refresh_access_token s st (TokenStr.valid p) now none =
        Except.ok (pair, st') ∧
      (∃ r ∈ st'.refresh_tokens,
        r.token = TokenStr.valid p ∧ r.is_revoked = true) ∧
      isRefreshValid st' (TokenStr.valid p) now = false ∧
      refresh_access_token s st' (TokenStr.valid p) now none =
        Except.error (ApiError.authenticationError "Failed to refresh token") := by
  refine ⟨{ access_token := create_access_token s u.id now
            refresh_token := create_refresh_token s u.id now },
    { st with refresh_tokens :=
        (revokeFirstMatching (liveRowFor (TokenStr.valid p) now)
          st.refresh_tokens) ++
        [{ user_id := u.id
           token := create_refresh_token s u.id now
           expires_at := now + s.REFRESH_TOKEN_EXPIRE_DAYS * 24 * 60 * 60
           is_revoked := false }] }, ?_, ?_, ?_, ?_⟩
  · have hbody : refreshBody s st (TokenStr.valid p) now none =
        Except.ok
          ({ access_token := create_access_token s u.id now
             refresh_token := create_refresh_token s u.id now },
            { st with refresh_tokens :=
                (revokeFirstMatching (liveRowFor (TokenStr.valid p) now)
                  st.refresh_tokens) ++
                [{ user_id := u.id
                   token := create_refresh_token s u.id now
                   expires_at := now + s.REFRESH_TOKEN_EXPIRE_DAYS * 24 * 60 * 60
                   is_revoked := false }] }) := by
      simp [refreshBody, decode_token, hexp, htype, hsub, hne, hbl, hrow,
        hparse, huser, hact]
    simp [refresh_access_token, hbody]
  · have hlive : liveRowFor (TokenStr.valid p) now row = true :=
      List.find?_some hrow
    have htokeq : row.token = TokenStr.valid p := by
      have := liveRowFor_token_eq hlive
      simpa using this
    refine ⟨{ row with is_revoked := true }, ?_, by simpa using htokeq, rfl⟩
    exact List.mem_append_left _
      (mem_revokeFirstMatching_of_find _ _ _ hrow)
  · have hnolive :=
      no_live_after_revokeFirst (TokenStr.valid p) now st.refresh_tokens huniq
    have hqp : ({ exp := now + s.REFRESH_TOKEN_EXPIRE_DAYS * 24 * 60 * 60
                  sub := some (toString u.id)
                  type := some "refresh" } : Payload) ≠ p := by
      intro h
      have hpe : p.exp = now + s.REFRESH_TOKEN_EXPIRE_DAYS * 24 * 60 * 60 := by
        rw [← h]
      omega
    have hnew : liveRowFor (TokenStr.valid p) now
        { user_id := u.id
          token := create_refresh_token s u.id now
          expires_at := now + s.REFRESH_TOKEN_EXPIRE_DAYS * 24 * 60 * 60
          is_revoked := false } = false := by
      simp [liveRowFor, create_refresh_token, hqp]
    simp [isRefreshValid, List.any_append, hnolive, hnew]
  · have hnolive :=
      no_live_after_revokeFirst (TokenStr.valid p) now st.refresh_tokens huniq
    have hqp : ({ exp := now + s.REFRESH_TOKEN_EXPIRE_DAYS * 24 * 60 * 60
                  sub := some (toString u.id)
                  type := some "refresh" } : Payload) ≠ p := by
      intro h
      have hpe : p.exp = now + s.REFRESH_TOKEN_EXPIRE_DAYS * 24 * 60 * 60 := by
        rw [← h]
      omega
    have hnew : liveRowFor (TokenStr.valid p) now
        { user_id := u.id
          token := create_refresh_token s u.id now
          expires_at := now + s.REFRESH_TOKEN_EXPIRE_DAYS * 24 * 60 * 60
          is_revoked := false } = false := by
      simp [liveRowFor, create_refresh_token, hqp]
    have hfind2 :
        List.find? (liveRowFor (TokenStr.valid p) now)
          ((revokeFirstMatching (liveRowFor (TokenStr.valid p) now)
            st.refresh_tokens) ++
            ([{ user_id := u.id
                token := create_refresh_token s u.id now
                expires_at := now + s.REFRESH_TOKEN_EXPIRE_DAYS * 24 * 60 * 60
                is_revoked := false }] : List RefreshTokenRow)) = none := by
      rw [List.find?_eq_none]
      intro x hx
      rcases List.mem_append.mp hx with hx | hx
      · rw [List.any_eq_false] at hnolive
        exact hnolive x hx
      · have hxe : x = { user_id := u.id
                         token := create_refresh_token s u.id now
                         expires_at :=
                           now + s.REFRESH_TOKEN_EXPIRE_DAYS * 24 * 60 * 60
                         is_revoked := false } := by simpa using hx
        rw [hxe]
        simp [hnew]
    have hbody2 :=
      refreshBody_error_of_no_row s
        ({ st with refresh_tokens :=
            (revokeFirstMatching (liveRowFor (TokenStr.valid p) now)
              st.refresh_tokens) ++
            [{ user_id := u.id
               token := create_refresh_token s u.id now
               expires_at := now + s.REFRESH_TOKEN_EXPIRE_DAYS * 24 * 60 * 60
               is_revoked := false }] } : State)
        p now subStr htype hsub hne hexp hbl hfind2
    simp [refresh_access_token, hbody2]

/-- C1 witness: `alice` refreshes her live session `row1` once; the replay
fails. -/
theorem C1_refresh_rotation_single_use_witness :
    ∃ pair st',
      refresh_access_token defaultSettings stSession tok1 1000 none =
        Except.ok (pair, st') ∧
      (∃ r ∈ st'.refresh_tokens, r.token = tok1 ∧ r.is_revoked = true) ∧
      isRefreshValid st' tok1 1000 = false ∧
      refresh_access_token defaultSettings st' tok1 1000 none =
        Except.error (ApiError.authenticationError "Failed to refresh token") :=
  C1_refresh_rotation_single_use defaultSettings stSession
    { exp := 2592000, sub := some "1", type := some "refresh" } 1000 "1" 1
    alice row1 (by decide) (by decide) (by decide) (by decide) (by decide)
    (by decide) (by decide) (by decide) (by decide) (by decide) (by decide)

end FoodSafety
